import Mathlib

/-!
Shallow embedding of `src/index.js` of the us-visa-bot repository.

The source is a single Node.js file driving a polling loop against a visa
appointment portal.  The HTTP transport, the HTML-attribute extraction
utility (cheerio) and the JSON parser are external collaborators; a raw
response is therefore modelled as a record carrying the observable data the
code reads from it: the `ok` flag and numeric status, the body text, the
`set-cookie` header (absent = `none`), the content of the
`meta[name=csrf-token]` tag as extracted by cheerio (absent = `none`), and
the parse result of the JSON body where relevant.

JavaScript string containment (`String.prototype.includes`) is modelled by
`strContains`, and JavaScript truthiness of an optional string (undefined,
null and the empty string are falsy) by `jsTruthyStr`.
-/

/-- Predicate `leadsList pat l` is true when `pat` occurs at the start of `l`
(character-by-character comparison, as JS `includes` would do at one
position). -/
def leadsList : List Char → List Char → Bool
  | [], _ => true
  | _ :: _, [] => false
  | a :: as, b :: bs => a == b && leadsList as bs

/-- Predicate `occursIn pat l` is true when `pat` occurs contiguously somewhere in
`l`. -/
def occursIn (pat : List Char) : List Char → Bool
  | [] => leadsList pat []
  | c :: rest => leadsList pat (c :: rest) || occursIn pat rest

/-- Model of JavaScript `s.includes(pat)`. -/
def strContains (s pat : String) : Bool :=
  occursIn pat.toList s.toList

/-- The marker the source greps error messages and response bodies for:
every `catch` block classifies an error as session expiry exactly when its
message contains this substring. -/
def sessionExpiredMarker : String := "session expired"

/-- The exact message thrown by the source at every point where it detects
session expiry (`throw new Error('Your session expired, ...')`). -/
def sessionExpiredMsg : String :=
  "Your session expired, please sign in again to continue."

/-- Message thrown by `extractRelevantCookies` when the `set-cookie` header
is absent. -/
def noCookiesMsg : String :=
  "No cookies found in response, session may have expired"

/-- Message thrown by `extractRelevantCookies` when the `_yatri_session`
cookie is not among the parsed pairs. -/
def noSessionCookieMsg : String :=
  "Session cookie not found, session may have expired"

/-- Message thrown by `extractHeaders` when the CSRF meta tag is missing. -/
def noCsrfMsg : String :=
  "Could not extract CSRF token, session may have expired"

/-- JavaScript truthiness of a possibly-undefined string: `undefined`
and `''` are falsy, everything else passes through. -/
def jsTruthyStr : Option String → Option String
  | some s => if s = "" then none else some s
  | none => none

/-- Decimal digits of a number, most significant first, with explicit
fuel (one digit is produced per fuel step at most, so `n + 1` fuel always
suffices). -/
def natCharsAux : Nat → Nat → List Char
  | 0, _ => []
  | fuel + 1, n =>
    if n < 10 then [Nat.digitChar n]
    else natCharsAux fuel (n / 10) ++ [Nat.digitChar (n % 10)]

/-- The decimal rendering of a number, as JS template interpolation of a
status code produces it. -/
def natChars (n : Nat) : List Char := natCharsAux (n + 1) n

/-- A JS template string `front` followed by an interpolated numeric
status. -/
def withStatus (front : String) (status : Nat) : String :=
  (front.toList ++ natChars status).asString

/-- A raw HTTP response as observed by the source: `ok`/`status` from
fetch, `text` the body, `setCookie` the `set-cookie` header
(`headers.get` returns null when absent), `csrfMeta` the value cheerio
extracts from the `meta[name=csrf-token]` tag of the body HTML
(`attr` returns undefined when the tag is absent). -/
structure RawResponse where
  ok : Bool
  status : Nat
  text : String
  setCookie : Option String
  csrfMeta : Option String
deriving DecidableEq, Repr

/-- JS `String.prototype.split` with a one-character separator:
`''.split(sep)` is `['']`, separators delimit (possibly empty) groups. -/
def splitOnChar (sep : Char) : List Char → List (List Char)
  | [] => [[]]
  | c :: rest =>
    if c == sep then [] :: splitOnChar sep rest
    else
      match splitOnChar sep rest with
      | [] => [[c]]
      | g :: gs => (c :: g) :: gs

/-- JS whitespace as far as cookie headers are concerned. -/
def isJsSpace (c : Char) : Bool :=
  c == ' ' || c == '\t' || c == '\n' || c == '\r'

/-- Drop leading whitespace. -/
def dropLeadSpace : List Char → List Char
  | [] => []
  | c :: rest => if isJsSpace c then dropLeadSpace rest else c :: rest

/-- JS `String.prototype.trim` on a character list. -/
def trimChars (l : List Char) : List Char :=
  (dropLeadSpace (dropLeadSpace l).reverse).reverse

/-- Model of `parseCookies`: split the header on `;`, trim each part,
split each part on `=` keeping JS `split('=', 2)` semantics (the value is
the second component only, undefined when there is no `=`).  The result is
the association list in order; later entries shadow earlier ones as in a
JS object. -/
def parseCookies (cookies : String) : List (List Char × Option (List Char)) :=
  (splitOnChar ';' cookies.toList).map (fun c =>
    let c := trimChars c
    let parts := splitOnChar '=' c
    (parts.headD [], parts[1]?))

/-- JS object lookup on the association list built by `parseCookies`:
the last binding of the key wins; `none` is a key that was never bound. -/
def jsObjGet (l : List (List Char × Option (List Char))) (k : List Char) :
    Option (Option (List Char)) :=
  (l.reverse.find? (fun p => p.1 == k)).map (fun p => p.2)

/-- JS truthiness of a possibly-undefined cookie value: undefined and the
empty string are falsy. -/
def jsTruthyChars : Option (List Char) → Option (List Char)
  | some [] => none
  | some (c :: cs) => some (c :: cs)
  | none => none

/-- Lookup `parsedCookies['_yatri_session']` followed by the JS truthiness test
the source performs on it: returns the value only when the binding exists,
is not undefined and is not the empty string. -/
def truthyLookup (l : List (List Char × Option (List Char))) (k : List Char) :
    Option (List Char) :=
  match jsObjGet l k with
  | some v => jsTruthyChars v
  | none => none

/-- Model of `extractRelevantCookies`: fail when the `set-cookie` header is
absent (or empty, which is falsy in JS), parse it, fail when the
`_yatri_session` cookie is not present (or falsy), otherwise return the
reconstructed cookie string. -/
def extractRelevantCookies (r : RawResponse) : Except String String :=
  match r.setCookie with
  | none => .error noCookiesMsg
  | some h =>
    if h = "" then .error noCookiesMsg
    else
      match truthyLookup (parseCookies h) "_yatri_session".toList with
      | none => .error noSessionCookieMsg
      | some v => .ok ("_yatri_session=" ++ v.asString)

/-- The Session fragment `extractHeaders` produces (the fixed header fields
such as the user agent and referer are constants and carry no information). -/
structure SessionFragment where
  cookie : String
  csrfToken : String
deriving DecidableEq, Repr

/-- Model of `extractHeaders`: extract the cookie, read the CSRF meta tag
(the JS falsy test treats an empty attribute like a missing one), and in
the surrounding catch convert any error mentioning `CSRF token` to the
canonical session-expired message, re-raising every other error as is. -/
def extractHeaders (r : RawResponse) : Except String SessionFragment :=
  let inner : Except String SessionFragment :=
    match extractRelevantCookies r with
    | .error e => .error e
    | .ok cookie =>
      match jsTruthyStr r.csrfMeta with
      | none => .error noCsrfMsg
      | some t => .ok { cookie := cookie, csrfToken := t }
  match inner with
  | .error e => if strContains e "CSRF token" then .error sessionExpiredMsg else .error e
  | .ok v => .ok v


/-- Parsed JSON body of the per-facility `days` endpoint: an optional
`error` field and the list obtained by `data.map(item => item.date)`. -/
structure DaysData where
  error : Option String
  dates : List String
deriving DecidableEq, Repr

/-- Response of the `days` endpoint: the JSON parse result is `.error msg`
when `response.json()` rejects (malformed body). -/
structure DaysResponse where
  ok : Bool
  status : Nat
  text : String
  json : Except String DaysData
deriving Repr

/-- Outcome of a fetch: either the transport rejected with an error
message, or a response arrived. -/
inductive DaysFetch where
  | netErr (msg : String)
  | resp (r : DaysResponse)
deriving Repr

/-- The body of the `try` block of `checkAllAvailableDates`, before the
surrounding catch: non-OK statuses throw (session-expired message when the
body text carries the marker), a truthy portal `error` field throws
(session-expired message when it carries the marker), otherwise the date
list is returned. -/
def checkDaysBody (r : DaysResponse) : Except String (List String) :=
  if r.ok = false then
    if strContains r.text sessionExpiredMarker then .error sessionExpiredMsg
    else .error (withStatus "Failed to fetch available dates: " r.status)
  else
    match r.json with
    | .error e => .error e
    | .ok data =>
      match jsTruthyStr data.error with
      | some e =>
        if strContains e sessionExpiredMarker then .error sessionExpiredMsg
        else .error e
      | none => .ok data.dates

/-- Model of `checkAllAvailableDates`: run the try-block (a transport
rejection surfaces as its own error) and apply the catch: an error whose
message contains the marker is re-thrown, every other error is logged and
degraded to the empty list. -/
def checkAllAvailableDates (f : DaysFetch) : Except String (List String) :=
  let attempt : Except String (List String) :=
    match f with
    | .netErr msg => .error msg
    | .resp r => checkDaysBody r
  match attempt with
  | .error e => if strContains e sessionExpiredMarker then .error e else .ok []
  | .ok v => .ok v

/-- Session-expired classification of a `days` fetch as the claims state
it: a non-2xx status whose body text contains the marker, or a parsed
portal `error` field containing the marker. -/
def daysSessionExpired (f : DaysFetch) : Prop :=
  match f with
  | .netErr _ => False
  | .resp r =>
    (r.ok = false ∧ strContains r.text sessionExpiredMarker = true) ∨
    (r.ok = true ∧ ∃ data e, r.json = .ok data ∧ jsTruthyStr data.error = some e ∧
      strContains e sessionExpiredMarker = true)

/-- Realistic side condition: messages produced outside the source's own
throw sites (transport rejections and JSON-parse rejections) do not happen
to contain the session-expiry marker. -/
def daysCleanMessages (f : DaysFetch) : Prop :=
  match f with
  | .netErr msg => strContains msg sessionExpiredMarker = false
  | .resp r => ∀ e, r.json = .error e → strContains e sessionExpiredMarker = false

/-- A `days` fetch whose handling fails for some reason: transport
rejection, non-2xx status, malformed JSON, or a truthy portal `error`
field. -/
def daysFails (f : DaysFetch) : Prop :=
  match f with
  | .netErr _ => True
  | .resp r =>
    r.ok = false ∨ (∃ e, r.json = .error e) ∨
    (∃ data e, r.json = .ok data ∧ jsTruthyStr data.error = some e)

/-- Parsed JSON body of the per-facility `times` endpoint: optional
`error`, and the `business_times` / `available_times` arrays, `none` when
the field is absent from the JSON (accessing `[0]` on it then throws a
TypeError in JS). -/
structure TimesData where
  error : Option String
  business_times : Option (List String)
  available_times : Option (List String)
deriving DecidableEq, Repr

/-- Response of the `times` endpoint. -/
structure TimesResponse where
  ok : Bool
  status : Nat
  text : String
  json : Except String TimesData
deriving Repr

/-- Outcome of a `times` fetch. -/
inductive TimesFetch where
  | netErr (msg : String)
  | resp (r : TimesResponse)
deriving Repr

/-- The message of the TypeError JS raises when indexing `[0]` on an
undefined field, as happens in `data['business_times'][0]` when the field
is missing. -/
def undefinedIndexMsg : String :=
  "Cannot read properties of undefined (reading '0')"

/-- The body of the `try` block of `checkAvailableTime`: like the days
endpoint, then `data['business_times'][0] || data['available_times'][0]`
with JS semantics — a missing array raises a TypeError, an empty array
yields undefined (modelled `none`), and `||` takes the right operand when
the left is falsy. -/
def checkTimeBody (r : TimesResponse) : Except String (Option String) :=
  if r.ok = false then
    if strContains r.text sessionExpiredMarker then .error sessionExpiredMsg
    else .error (withStatus "Failed to fetch available times: " r.status)
  else
    match r.json with
    | .error e => .error e
    | .ok data =>
      match jsTruthyStr data.error with
      | some e =>
        if strContains e sessionExpiredMarker then .error sessionExpiredMsg
        else .error e
      | none =>
        match data.business_times with
        | none => .error undefinedIndexMsg
        | some bl =>
          match jsTruthyStr bl[0]? with
          | some b => .ok (some b)
          | none =>
            match data.available_times with
            | none => .error undefinedIndexMsg
            | some al => .ok al[0]?

/-- Model of `checkAvailableTime`: run the try-block and apply the catch:
errors carrying the marker are re-thrown, everything else is logged and
degraded to `null` (modelled `none`). -/
def checkAvailableTime (f : TimesFetch) : Except String (Option String) :=
  let attempt : Except String (Option String) :=
    match f with
    | .netErr msg => .error msg
    | .resp r => checkTimeBody r
  match attempt with
  | .error e => if strContains e sessionExpiredMarker then .error e else .ok none
  | .ok v => .ok v

/-- Side condition for `times` fetches, as for `days`. -/
def timesCleanMessages (f : TimesFetch) : Prop :=
  match f with
  | .netErr msg => strContains msg sessionExpiredMarker = false
  | .resp r => ∀ e, r.json = .error e → strContains e sessionExpiredMarker = false

/-- An absent or empty optional array. -/
def emptyishTimes (o : Option (List String)) : Prop :=
  o = none ∨ o = some []

/-- A `times` fetch whose handling fails for a reason that is not
classified as session expiry: a transport rejection, a non-2xx status
without the marker in the body, malformed JSON, a non-session portal
error, or a body in which both time arrays are missing or empty. -/
def timesNonSessionFailure (f : TimesFetch) : Prop :=
  match f with
  | .netErr _ => True
  | .resp r =>
    (r.ok = false ∧ strContains r.text sessionExpiredMarker = false) ∨
    (r.ok = true ∧ ∃ e, r.json = .error e) ∨
    (r.ok = true ∧ ∃ data e, r.json = .ok data ∧ jsTruthyStr data.error = some e ∧
      strContains e sessionExpiredMarker = false) ∨
    (r.ok = true ∧ ∃ data, r.json = .ok data ∧ jsTruthyStr data.error = none ∧
      emptyishTimes data.business_times ∧ emptyishTimes data.available_times)

/-- Response of the booking `POST` as `book` reads it: only `ok`, `status`
and (when not ok) the body text are consulted. -/
structure BookResponse where
  ok : Bool
  status : Nat
  text : String
deriving DecidableEq, Repr

/-- The handling of the booking `POST` response in `book` (the lines after
the POST): a non-OK status throws, with the session-expired message when
the body carries the marker; any OK status returns `true` without reading
the body. -/
def handleBookingResponse (r : BookResponse) : Except String Bool :=
  if r.ok = false then
    if strContains r.text sessionExpiredMarker then .error sessionExpiredMsg
    else .error (withStatus "Booking failed with status: " r.status)
  else .ok true

/-- The form fields of the booking `POST` that vary per attempt (the
remaining fields are constants in the source). -/
structure BookForm where
  authenticity_token : String
  date : String
  time : String
deriving DecidableEq, Repr

/-- The session header set held by the supervisor: the cookie from login
together with the CSRF token that was extracted from the anonymous
sign-in page (login merges the anonymous headers with the fresh cookie). -/
structure SessionHeaders where
  cookie : String
  csrfToken : String
deriving DecidableEq, Repr

/-- The first half of `book`: GET the appointment page (classifying a
non-OK response through the marker rule), run `extractHeaders` on it, and
build the form of the booking `POST`.  The `authenticity_token` field is
`newHeaders['X-CSRF-Token']`, i.e. the token of the page just fetched; the
supervisor's session headers are used only to authenticate the GET
transport call and contribute nothing to the form. -/
def bookRequest (session : SessionHeaders) (getResp : RawResponse)
    (date time : String) : Except String BookForm :=
  let _ := session
  if getResp.ok = false then
    if strContains getResp.text sessionExpiredMarker then .error sessionExpiredMsg
    else .error (withStatus "Failed to prepare booking request: " getResp.status)
  else
    match extractHeaders getResp with
    | .error e => .error e
    | .ok newHeaders =>
      .ok { authenticity_token := newHeaders.csrfToken, date := date, time := time }

/-- Lexicographic `≤` on character lists: the order JS uses to compare
strings (code-unit comparison; identical on the ASCII dates at hand). -/
def charListLe : List Char → List Char → Bool
  | [], _ => true
  | _ :: _, [] => false
  | a :: as, b :: bs => decide (a < b) || (a == b && charListLe as bs)

/-- Lexicographic `<` on character lists. -/
def charListLt : List Char → List Char → Bool
  | [], [] => false
  | [], _ :: _ => true
  | _ :: _, [] => false
  | a :: as, b :: bs => decide (a < b) || (a == b && charListLt as bs)

/-- JS `a <= b` on strings. -/
def strLe (a b : String) : Bool := charListLe a.toList b.toList

/-- JS `a < b` on strings. -/
def strLt (a b : String) : Bool := charListLt a.toList b.toList

/-- The eligibility filter and sort of the main loop:
`dates.filter(date => date >= tomorrowStr && date < currentBookedDate).sort()`.
String comparison on ISO dates; JS default sort is lexicographic and
ascending. -/
def eligibleDates (dates : List String) (tomorrowStr currentBookedDate : String) :
    List String :=
  List.insertionSort (fun a b => strLe a b = true)
    (dates.filter (fun d => strLe tomorrowStr d && strLt d currentBookedDate))

/-- The `for (const date of eligibleDates)` loop of one polling cycle:
for each date in order, look up a time (skip the date when none), attempt
the booking, and on the first success return that date as the new current
booked date, skipping the rest.  `timeFor` abstracts `checkAvailableTime`
for the cycle and `bookOk` the outcome of `book` (a thrown booking error
also leaves the current date unchanged and moves to the next date). -/
def tryDates (currentBookedDate : String) (timeFor : String → Option String)
    (bookOk : String → Bool) : List String → String
  | [] => currentBookedDate
  | d :: rest =>
    match timeFor d with
    | none => tryDates currentBookedDate timeFor bookOk rest
    | some _ =>
      if bookOk d then d
      else tryDates currentBookedDate timeFor bookOk rest

/-- The dates on which the loop actually invokes `book`: a date with no
available time is skipped without a booking call, and the loop stops at
the first successful booking. -/
def bookingAttempts (timeFor : String → Option String) (bookOk : String → Bool) :
    List String → List String
  | [] => []
  | d :: rest =>
    match timeFor d with
    | none => bookingAttempts timeFor bookOk rest
    | some _ =>
      if bookOk d then [d]
      else d :: bookingAttempts timeFor bookOk rest

/-- The environment one polling cycle runs in: the computed tomorrow
string, the dates the availability check returned, and the per-date time
lookup and booking outcomes. -/
structure CycleInput where
  tomorrowStr : String
  dates : List String
  timeFor : String → Option String
  bookOk : String → Bool

/-- The value of `currentBookedDate` after one polling cycle. -/
def cycleStep (currentBookedDate : String) (i : CycleInput) : String :=
  tryDates currentBookedDate i.timeFor i.bookOk
    (eligibleDates i.dates i.tomorrowStr currentBookedDate)

/-- The trace of `currentBookedDate` values over a run, one entry per
polling cycle. -/
def runTrace (currentBookedDate : String) : List CycleInput → List String
  | [] => []
  | i :: is =>
    let c := cycleStep currentBookedDate i
    c :: runTrace c is

/-- Model of the date-format regex of `main`. -/
def validDateFormat (s : String) : Bool :=
  match s.toList with
  | [a, b, c, d, e, f, g, h, i, j] =>
    a.isDigit && b.isDigit && c.isDigit && d.isDigit && e == '-' &&
    f.isDigit && g.isDigit && h == '-' && i.isDigit && j.isDigit
  | _ => false

/-- How a run of `main` starts, before the polling loop is reached. -/
inductive StartupOutcome where
  | fatal
  | retryMain (headersErr : String)
  | loop (headers : SessionHeaders)
deriving DecidableEq, Repr

/-- Model of the startup path of `main`: a missing (or falsy) date
argument exits the process, a date failing the format regex exits the
process, and a failing initial `login()` is caught by the outer catch,
which logs and recursively re-invokes `main` with the same date.  Only a
successful login reaches the polling loop. -/
def startup (arg : Option String) (loginResult : Except String SessionHeaders) :
    StartupOutcome :=
  match arg with
  | none => .fatal
  | some d =>
    if d = "" then .fatal
    else if validDateFormat d = false then .fatal
    else
      match loginResult with
      | .error e => .retryMain e
      | .ok h => .loop h

/-- A concrete response carrying a session cookie and a CSRF meta tag,
used to instantiate theorems below. -/
def cookieResp : RawResponse :=
  { ok := true, status := 200, text := "<html></html>",
    setCookie := some "_yatri_session=abc123; path=/; HttpOnly",
    csrfMeta := some "tok9" }

/-- Like `cookieResp` but with a different status, ok flag and body. -/
def cookieRespOtherStatus : RawResponse :=
  { ok := false, status := 404, text := "not found",
    setCookie := some "_yatri_session=abc123; path=/; HttpOnly",
    csrfMeta := some "tok9" }

/-- A concrete response with no `set-cookie` header at all. -/
def noCookieResp : RawResponse :=
  { ok := true, status := 200, text := "<html></html>", setCookie := none,
    csrfMeta := some "tok9" }

/-- A concrete non-2xx `days` response whose body carries the expiry
marker. -/
def daysExpiredResp : DaysResponse :=
  { ok := false, status := 401,
    text := "Your session expired, please sign in again to continue.",
    json := .ok { error := none, dates := [] } }

/-- A concrete non-2xx `times` response without the expiry marker. -/
def timesFailResp : TimesResponse :=
  { ok := false, status := 500, text := "Internal Server Error",
    json := .ok { error := none, business_times := some [], available_times := some [] } }

/-- A concrete 2xx booking response whose body carries the expiry marker. -/
def okExpiredBookResp : BookResponse :=
  { ok := true, status := 200, text := "<p>your session expired while booking</p>" }

/-- A concrete non-2xx booking response whose body carries the expiry
marker. -/
def failedBookResp : BookResponse :=
  { ok := false, status := 502,
    text := "Your session expired, please sign in again to continue." }

/-! ## Helper lemmas -/

theorem digitChar_isDigit (n : Nat) (h : n < 10) : (Nat.digitChar n).isDigit = true := by
  interval_cases n <;> decide

theorem natCharsAux_digits :
    ∀ fuel n c, c ∈ natCharsAux fuel n → c.isDigit = true := by
  intro fuel
  induction fuel with
  | zero => intro n c hc; simp [natCharsAux] at hc
  | succ fuel ih =>
    intro n c hc
    by_cases h : n < 10
    · simp [natCharsAux, h] at hc
      subst hc
      exact digitChar_isDigit n h
    · simp [natCharsAux, h] at hc
      rcases hc with hc | hc
      · exact ih _ _ hc
      · subst hc
        exact digitChar_isDigit _ (Nat.mod_lt _ (by omega))

theorem natChars_digits (n : Nat) (c : Char) (hc : c ∈ natChars n) : c.isDigit = true :=
  natCharsAux_digits _ _ _ hc

theorem leadsList_append_digits (pat : List Char)
    (hpat : ∀ c ∈ pat, c.isDigit = false) :
    ∀ front tail, (∀ c ∈ tail, c.isDigit = true) →
      leadsList pat (front ++ tail) = leadsList pat front := by
  induction pat with
  | nil => intro front tail _; rfl
  | cons p ps ih =>
    intro front tail htail
    cases front with
    | nil =>
      cases tail with
      | nil => rfl
      | cons t ts =>
        have hpt : (p == t) = false := by
          rw [beq_eq_false_iff_ne]
          intro he
          have h1 := hpat p (by simp)
          have h2 := htail t (by simp)
          rw [he, h2] at h1
          simp at h1
        simp [leadsList, hpt]
    | cons f fs =>
      simp only [List.cons_append, leadsList, List.append_eq]
      rw [ih (fun c hc => hpat c (by simp [hc])) fs tail htail]

theorem occursIn_digits_false (p : Char) (ps : List Char)
    (hp : p.isDigit = false) :
    ∀ tail, (∀ c ∈ tail, c.isDigit = true) → occursIn (p :: ps) tail = false := by
  intro tail
  induction tail with
  | nil => intro _; rfl
  | cons t ts ih =>
    intro htail
    have hpt : (p == t) = false := by
      rw [beq_eq_false_iff_ne]
      intro he
      have h2 := htail t (by simp)
      rw [he, h2] at hp
      exact absurd hp (by simp)
    simp [occursIn, leadsList, hpt, ih (fun c hc => htail c (by simp [hc]))]

theorem occursIn_append_digits (pat : List Char)
    (hpat : ∀ c ∈ pat, c.isDigit = false) (hne : pat ≠ []) :
    ∀ front tail, (∀ c ∈ tail, c.isDigit = true) →
      occursIn pat (front ++ tail) = occursIn pat front := by
  intro front
  induction front with
  | nil =>
    intro tail htail
    cases pat with
    | nil => exact absurd rfl hne
    | cons p ps =>
      rw [List.nil_append]
      rw [occursIn_digits_false p ps (hpat p (by simp)) tail htail]
      rfl
  | cons c cs ih =>
    intro tail htail
    cases pat with
    | nil => exact absurd rfl hne
    | cons p ps =>
      simp only [List.cons_append, occursIn, List.append_eq]
      have h1 := leadsList_append_digits (p :: ps) hpat (c :: cs) tail htail
      simp only [List.cons_append] at h1
      rw [h1, ih tail htail]

theorem strContains_withStatus (front : String) (n : Nat) (pat : String)
    (hpat : ∀ c ∈ pat.toList, c.isDigit = false) (hne : pat.toList ≠ []) :
    strContains (withStatus front n) pat = strContains front pat := by
  show occursIn pat.toList (front.toList ++ natChars n) = occursIn pat.toList front.toList
  exact occursIn_append_digits _ hpat hne _ _ (fun c hc => natChars_digits n c hc)

theorem marker_in_sessionMsg :
    strContains sessionExpiredMsg sessionExpiredMarker = true := by decide

theorem marker_not_in_noCookiesMsg :
    strContains noCookiesMsg sessionExpiredMarker = false := by decide

theorem marker_not_in_noSessionCookieMsg :
    strContains noSessionCookieMsg sessionExpiredMarker = false := by decide

theorem marker_chars_not_digits :
    ∀ c ∈ sessionExpiredMarker.toList, c.isDigit = false := by decide

theorem marker_chars_ne_nil : sessionExpiredMarker.toList ≠ [] := by decide

theorem charListLe_total : ∀ a b, charListLe a b = true ∨ charListLe b a = true := by
  intro a
  induction a with
  | nil => intro b; left; rfl
  | cons x xs ih =>
    intro b
    cases b with
    | nil => right; rfl
    | cons y ys =>
      simp only [charListLe, Bool.or_eq_true, decide_eq_true_iff, Bool.and_eq_true,
        beq_iff_eq]
      rcases lt_trichotomy x y with h | h | h
      · left; left; exact h
      · rcases ih ys with h2 | h2
        · left; right; exact ⟨h, h2⟩
        · right; right; exact ⟨h.symm, h2⟩
      · right; left; exact h

theorem charListLe_trans :
    ∀ a b c, charListLe a b = true → charListLe b c = true → charListLe a c = true := by
  intro a
  induction a with
  | nil => intro b c _ _; rfl
  | cons x xs ih =>
    intro b c hab hbc
    cases b with
    | nil => simp [charListLe] at hab
    | cons y ys =>
      cases c with
      | nil => simp [charListLe] at hbc
      | cons z zs =>
        simp only [charListLe, Bool.or_eq_true, decide_eq_true_iff, Bool.and_eq_true,
          beq_iff_eq] at hab hbc ⊢
        rcases hab with h1 | ⟨h1e, h1r⟩
        · rcases hbc with h2 | ⟨h2e, h2r⟩
          · left; exact lt_trans h1 h2
          · left; exact h2e ▸ h1
        · rcases hbc with h2 | ⟨h2e, h2r⟩
          · left; exact h1e ▸ h2
          · right; exact ⟨h1e.trans h2e, ih ys zs h1r h2r⟩

theorem mem_eligible_bounds {dates : List String} {t cur d : String}
    (hd : d ∈ eligibleDates dates t cur) :
    strLe t d = true ∧ strLt d cur = true := by
  unfold eligibleDates at hd
  rw [List.mem_insertionSort] at hd
  have h := (List.mem_filter.mp hd).2
  rw [Bool.and_eq_true] at h
  exact h

theorem eligibleDates_sorted (dates : List String) (t cur : String) :
    List.Sorted (fun a b => strLe a b = true) (eligibleDates dates t cur) :=
  @List.sorted_insertionSort String (fun a b => strLe a b = true) _
    ⟨fun a b => charListLe_total a.toList b.toList⟩
    ⟨fun a b c => charListLe_trans a.toList b.toList c.toList⟩ _

theorem tryDates_result (cur : String) (timeFor : String → Option String)
    (bookOk : String → Bool) :
    ∀ l, tryDates cur timeFor bookOk l = cur ∨
      (tryDates cur timeFor bookOk l ∈ l ∧ bookOk (tryDates cur timeFor bookOk l) = true) := by
  intro l
  induction l with
  | nil => left; rfl
  | cons d rest ih =>
    simp only [tryDates]
    cases htf : timeFor d with
    | none =>
      rcases ih with h | ⟨h1, h2⟩
      · left; exact h
      · right; exact ⟨List.mem_cons_of_mem _ h1, h2⟩
    | some tm =>
      by_cases hb : bookOk d = true
      · right
        rw [if_pos hb]
        exact ⟨List.mem_cons_self d rest, hb⟩
      · rw [if_neg hb]
        rcases ih with h | ⟨h1, h2⟩
        · left; exact h
        · right; exact ⟨List.mem_cons_of_mem _ h1, h2⟩

theorem bookingAttempts_subset (timeFor : String → Option String)
    (bookOk : String → Bool) :
    ∀ l d, d ∈ bookingAttempts timeFor bookOk l → d ∈ l := by
  intro l
  induction l with
  | nil => intro d hd; simp [bookingAttempts] at hd
  | cons x rest ih =>
    intro d hd
    simp only [bookingAttempts] at hd
    cases htf : timeFor x with
    | none =>
      rw [htf] at hd
      exact List.mem_cons_of_mem _ (ih d hd)
    | some tm =>
      rw [htf] at hd
      by_cases hb : bookOk x = true
      · rw [if_pos hb] at hd
        rw [List.mem_singleton] at hd
        subst hd
        exact List.mem_cons_self _ _
      · rw [if_neg hb] at hd
        rw [List.mem_cons] at hd
        rcases hd with h | h
        · subst h; exact List.mem_cons_self _ _
        · exact List.mem_cons_of_mem _ (ih d h)

theorem jsTruthyStr_eq_some {o : Option String} {t : String}
    (h : jsTruthyStr o = some t) : o = some t ∧ t ≠ "" := by
  cases o with
  | none => simp [jsTruthyStr] at h
  | some s =>
    simp only [jsTruthyStr] at h
    by_cases hs : s = ""
    · simp [hs] at h
    · simp only [hs, if_false] at h
      cases h
      exact ⟨rfl, hs⟩

theorem extractHeaders_ok {r : RawResponse} {h : SessionFragment}
    (he : extractHeaders r = .ok h) :
    r.csrfMeta = some h.csrfToken ∧ h.csrfToken ≠ "" ∧
      extractRelevantCookies r = .ok h.cookie := by
  unfold extractHeaders at he
  cases hc : extractRelevantCookies r with
  | error e => simp only [hc] at he; split at he <;> exact Except.noConfusion he
  | ok cookie =>
    simp only [hc] at he
    cases hm : jsTruthyStr r.csrfMeta with
    | none => simp only [hm] at he; split at he <;> exact Except.noConfusion he
    | some t =>
      simp only [hm] at he
      cases he
      have hts := jsTruthyStr_eq_some hm
      exact ⟨hts.1, hts.2, rfl⟩

/-! ## Claim theorems -/

/-- C1: for the configured lead time of 1 day and any value of today,
every candidate date the availability check returns for booking satisfies
both window bounds — it is at least the computed tomorrow string and
strictly before the current booked date — and no date outside this window
is ever passed to the booking step (booking is attempted only on members
of the filtered list). -/
theorem eligible_window_sound (dates : List String) (tomorrowStr cur d : String)
    (timeFor : String → Option String) (bookOk : String → Bool)
    (hd : d ∈ eligibleDates dates tomorrowStr cur ∨
      d ∈ bookingAttempts timeFor bookOk (eligibleDates dates tomorrowStr cur)) :
    strLe tomorrowStr d = true ∧ strLt d cur = true := by
  rcases hd with h | h
  · exact mem_eligible_bounds h
  · exact mem_eligible_bounds (bookingAttempts_subset _ _ _ d h)

/-- Witness for C1 at the spec scenario: 2025-05-20 is in the window
between 2025-05-11 and 2025-06-01. -/
theorem eligible_window_sound_witness :
    strLe "2025-05-11" "2025-05-20" = true ∧ strLt "2025-05-20" "2025-06-01" = true :=
  eligible_window_sound ["2025-05-20", "2025-06-05"] "2025-05-11" "2025-06-01"
    "2025-05-20" (fun _ => none) (fun _ => false) (Or.inl (by decide))

theorem marker_not_in_daysFailMsg (n : Nat) :
    strContains (withStatus "Failed to fetch available dates: " n)
      sessionExpiredMarker = false := by
  rw [strContains_withStatus _ _ _ marker_chars_not_digits marker_chars_ne_nil]
  decide

theorem checkAllDates_notOk_marker {r : DaysResponse} (hok : r.ok = false)
    (hm : strContains r.text sessionExpiredMarker = true) :
    checkAllAvailableDates (.resp r) = .error sessionExpiredMsg := by
  simp [checkAllAvailableDates, checkDaysBody, hok, hm, marker_in_sessionMsg]

theorem checkAllDates_notOk_noMarker {r : DaysResponse} (hok : r.ok = false)
    (hm : strContains r.text sessionExpiredMarker = false) :
    checkAllAvailableDates (.resp r) = .ok [] := by
  simp [checkAllAvailableDates, checkDaysBody, hok, hm, marker_not_in_daysFailMsg]

theorem checkAllDates_parseErr {r : DaysResponse} {e : String} (hok : r.ok = true)
    (hj : r.json = .error e) (hm : strContains e sessionExpiredMarker = false) :
    checkAllAvailableDates (.resp r) = .ok [] := by
  simp [checkAllAvailableDates, checkDaysBody, hok, hj, hm]

theorem checkAllDates_portalErr_marker {r : DaysResponse} {data : DaysData} {e : String}
    (hok : r.ok = true) (hj : r.json = .ok data) (he : jsTruthyStr data.error = some e)
    (hm : strContains e sessionExpiredMarker = true) :
    checkAllAvailableDates (.resp r) = .error sessionExpiredMsg := by
  simp [checkAllAvailableDates, checkDaysBody, hok, hj, he, hm, marker_in_sessionMsg]

theorem checkAllDates_portalErr_noMarker {r : DaysResponse} {data : DaysData} {e : String}
    (hok : r.ok = true) (hj : r.json = .ok data) (he : jsTruthyStr data.error = some e)
    (hm : strContains e sessionExpiredMarker = false) :
    checkAllAvailableDates (.resp r) = .ok [] := by
  simp [checkAllAvailableDates, checkDaysBody, hok, hj, he, hm]

theorem checkAllDates_success {r : DaysResponse} {data : DaysData} (hok : r.ok = true)
    (hj : r.json = .ok data) (he : jsTruthyStr data.error = none) :
    checkAllAvailableDates (.resp r) = .ok data.dates := by
  simp [checkAllAvailableDates, checkDaysBody, hok, hj, he]

/-- C2: `checkAllAvailableDates` raises an error exactly on the
session-expired classification — a non-2xx response whose body text
contains the marker, or a truthy portal `error` field containing the
marker — every error it raises carries the marker, and every other
failure (transport error, non-2xx without the marker, non-session portal
error, malformed JSON) is degraded to an empty date list; transport and
parser messages are assumed not to contain the marker themselves. -/
theorem check_all_dates_session_iff (f : DaysFetch) (hc : daysCleanMessages f) :
    ((∃ e, checkAllAvailableDates f = .error e) ↔ daysSessionExpired f) ∧
    (∀ e, checkAllAvailableDates f = .error e →
      strContains e sessionExpiredMarker = true) ∧
    (daysFails f → ¬ daysSessionExpired f → checkAllAvailableDates f = .ok []) := by
  cases f with
  | netErr msg =>
    have hc' : strContains msg sessionExpiredMarker = false := hc
    simp [checkAllAvailableDates, daysSessionExpired, daysFails, hc']
  | resp r =>
    cases hok : r.ok with
    | false =>
      cases hm : strContains r.text sessionExpiredMarker with
      | true =>
        have heval := checkAllDates_notOk_marker hok hm
        have hclass : daysSessionExpired (.resp r) := Or.inl ⟨hok, hm⟩
        refine ⟨⟨fun _ => hclass, fun _ => ⟨_, heval⟩⟩, ?_, ?_⟩
        · intro e he
          rw [heval] at he
          cases he
          exact marker_in_sessionMsg
        · intro _ hns
          exact absurd hclass hns
      | false =>
        have heval := checkAllDates_notOk_noMarker hok hm
        have hnclass : ¬ daysSessionExpired (.resp r) := by
          intro hclass
          rcases hclass with ⟨_, hm'⟩ | ⟨hok', _⟩
          · rw [hm] at hm'; exact Bool.noConfusion hm'
          · rw [hok] at hok'; exact Bool.noConfusion hok'
        refine ⟨⟨?_, fun hclass => absurd hclass hnclass⟩, ?_, ?_⟩
        · rintro ⟨e, he⟩
          rw [heval] at he
          exact Except.noConfusion he
        · intro e he
          rw [heval] at he
          exact Except.noConfusion he
        · intro _ _
          exact heval
    | true =>
      cases hj : r.json with
      | error e =>
        have hm : strContains e sessionExpiredMarker = false := hc e hj
        have heval := checkAllDates_parseErr hok hj hm
        have hnclass : ¬ daysSessionExpired (.resp r) := by
          intro hclass
          rcases hclass with ⟨hok', _⟩ | ⟨_, data, e', hj', _, _⟩
          · rw [hok] at hok'; exact Bool.noConfusion hok'
          · rw [hj] at hj'; exact Except.noConfusion hj'
        refine ⟨⟨?_, fun hclass => absurd hclass hnclass⟩, ?_, ?_⟩
        · rintro ⟨e', he'⟩
          rw [heval] at he'
          exact Except.noConfusion he'
        · intro e' he'
          rw [heval] at he'
          exact Except.noConfusion he'
        · intro _ _
          exact heval
      | ok data =>
        cases he : jsTruthyStr data.error with
        | some e =>
          cases hm : strContains e sessionExpiredMarker with
          | true =>
            have heval := checkAllDates_portalErr_marker hok hj he hm
            have hclass : daysSessionExpired (.resp r) :=
              Or.inr ⟨hok, data, e, hj, he, hm⟩
            refine ⟨⟨fun _ => hclass, fun _ => ⟨_, heval⟩⟩, ?_, ?_⟩
            · intro e' he'
              rw [heval] at he'
              cases he'
              exact marker_in_sessionMsg
            · intro _ hns
              exact absurd hclass hns
          | false =>
            have heval := checkAllDates_portalErr_noMarker hok hj he hm
            have hnclass : ¬ daysSessionExpired (.resp r) := by
              intro hclass
              rcases hclass with ⟨hok', _⟩ | ⟨_, data', e', hj', he', hm'⟩
              · rw [hok] at hok'; exact Bool.noConfusion hok'
              · rw [hj] at hj'
                cases hj'
                rw [he] at he'
                cases he'
                rw [hm] at hm'
                exact Bool.noConfusion hm'
            refine ⟨⟨?_, fun hclass => absurd hclass hnclass⟩, ?_, ?_⟩
            · rintro ⟨e', he'⟩
              rw [heval] at he'
              exact Except.noConfusion he'
            · intro e' he'
              rw [heval] at he'
              exact Except.noConfusion he'
            · intro _ _
              exact heval
        | none =>
          have heval := checkAllDates_success hok hj he
          have hnclass : ¬ daysSessionExpired (.resp r) := by
            intro hclass
            rcases hclass with ⟨hok', _⟩ | ⟨_, data', e', hj', he', _⟩
            · rw [hok] at hok'; exact Bool.noConfusion hok'
            · rw [hj] at hj'
              cases hj'
              rw [he] at he'
              exact Option.noConfusion he'
          refine ⟨⟨?_, fun hclass => absurd hclass hnclass⟩, ?_, ?_⟩
          · rintro ⟨e', he'⟩
            rw [heval] at he'
            exact Except.noConfusion he'
          · intro e' he'
            rw [heval] at he'
            exact Except.noConfusion he'
          · intro hf _
            exfalso
            rcases hf with hok' | ⟨e', hj'⟩ | ⟨data', e', hj', he'⟩
            · rw [hok] at hok'; exact Bool.noConfusion hok'
            · rw [hj] at hj'; exact Except.noConfusion hj'
            · rw [hj] at hj'
              cases hj'
              rw [he] at he'
              exact Option.noConfusion he'

/-- Witness for C2: a concrete expired-session response makes
`checkAllAvailableDates` raise. -/
theorem check_all_dates_session_iff_witness :
    ∃ e, checkAllAvailableDates (.resp daysExpiredResp) = Except.error e :=
  (check_all_dates_session_iff (.resp daysExpiredResp)
      (fun _ h => Except.noConfusion h)).1.mpr (Or.inl ⟨rfl, by decide⟩)

/-- C3: within one polling cycle, eligible dates are attempted in
ascending (lexicographic = chronological) order — the filtered list is
sorted and its first element is a lower bound of the whole list — and in
the concrete scenario (current booked date 2025-06-01, tomorrow
2025-05-11, facility dates 2025-05-20 and 2025-06-05) the eligible set is
exactly the singleton 2025-05-20 and the cycle selects 2025-05-20. -/
theorem eligible_sorted_and_scenario :
    (∀ dates t cur,
      List.Sorted (fun a b => strLe a b = true) (eligibleDates dates t cur)) ∧
    (∀ dates t cur d rest, eligibleDates dates t cur = d :: rest →
      ∀ x ∈ eligibleDates dates t cur, strLe d x = true) ∧
    eligibleDates ["2025-05-20", "2025-06-05"] "2025-05-11" "2025-06-01" =
      ["2025-05-20"] ∧
    cycleStep "2025-06-01"
      { tomorrowStr := "2025-05-11", dates := ["2025-05-20", "2025-06-05"],
        timeFor := fun _ => some "09:00", bookOk := fun _ => true } =
      "2025-05-20" := by
  refine ⟨eligibleDates_sorted, ?_, by decide, by decide⟩
  intro dates t cur d rest hlist x hx
  have hs := eligibleDates_sorted dates t cur
  rw [hlist] at hs hx
  rcases List.mem_cons.mp hx with h | h
  · subst h
    rcases charListLe_total x.toList x.toList with h2 | h2 <;> exact h2
  · exact (List.sorted_cons.mp hs).1 x h

/-- Witness for C3: in the scenario the head of the eligible list bounds
every element of it. -/
theorem eligible_sorted_and_scenario_witness :
    strLe "2025-05-20" "2025-05-20" = true :=
  eligible_sorted_and_scenario.2.1 ["2025-05-20", "2025-06-05"] "2025-05-11"
    "2025-06-01" "2025-05-20" [] (by decide) "2025-05-20" (by decide)

/-- C4 counterexample: a booking POST response with HTTP 200 whose body
contains the session-expiry marker is reported as a successful booking by
`book`, not as a SessionExpired failure — the body is never inspected on a
2xx status. -/
theorem book_200_expired_body_succeeds :
    handleBookingResponse okExpiredBookResp = .ok true ∧
    okExpiredBookResp.ok = true ∧
    strContains okExpiredBookResp.text sessionExpiredMarker = true :=
  ⟨rfl, rfl, by decide⟩

/-- C4 amended: any 2xx booking response is treated as a confirmed
booking regardless of body content; only a non-2xx response has its body
checked for the marker, failing SessionExpired when it is present and with
a generic status message otherwise. -/
theorem handle_booking_response_spec (r : BookResponse) :
    (r.ok = true → handleBookingResponse r = .ok true) ∧
    (r.ok = false → strContains r.text sessionExpiredMarker = true →
      handleBookingResponse r = .error sessionExpiredMsg) ∧
    (r.ok = false → strContains r.text sessionExpiredMarker = false →
      handleBookingResponse r =
        .error (withStatus "Booking failed with status: " r.status)) :=
  ⟨fun hok => by simp [handleBookingResponse, hok],
    fun hok hm => by simp [handleBookingResponse, hok, hm],
    fun hok hm => by simp [handleBookingResponse, hok, hm]⟩

/-- Witness for the amended C4: a concrete 502 response with the marker in
the body fails SessionExpired. -/
theorem handle_booking_response_spec_witness :
    handleBookingResponse failedBookResp = .error sessionExpiredMsg :=
  (handle_booking_response_spec failedBookResp).2.1 rfl (by decide)

/-- C5: a response without a `set-cookie` header (and likewise one whose
cookies lack the `_yatri_session` name) makes the Extractor throw, for any
HTTP status; but the thrown messages (`... session may have expired`) do
not contain the substring `session expired` that every call site uses to
classify session expiry, so the call sites treat the failure as generic,
not as SessionExpired — the code slips where the spec expects a
SessionExpired classification. -/
theorem no_cookie_error_not_recognized :
    (∀ ok status text csrf,
      extractRelevantCookies ⟨ok, status, text, none, csrf⟩ = .error noCookiesMsg) ∧
    extractHeaders noCookieResp = .error noCookiesMsg ∧
    strContains noCookiesMsg sessionExpiredMarker = false ∧
    strContains noSessionCookieMsg sessionExpiredMarker = false :=
  ⟨fun _ _ _ _ => rfl, rfl, by decide, by decide⟩

/-- C6: one polling cycle either leaves the current booked date unchanged
or replaces it by a strictly earlier date, and only when the booking call
for that date reported success; consequently over any run the trace of
current-booked-date values only ever steps downwards. -/
theorem booked_date_strictly_decreases :
    (∀ cur i, cycleStep cur i = cur ∨
      (strLt (cycleStep cur i) cur = true ∧ i.bookOk (cycleStep cur i) = true)) ∧
    (∀ cur is, List.Chain (fun a b => b = a ∨ strLt b a = true) cur
      (runTrace cur is)) := by
  have hstep : ∀ cur i, cycleStep cur i = cur ∨
      (strLt (cycleStep cur i) cur = true ∧ i.bookOk (cycleStep cur i) = true) := by
    intro cur i
    unfold cycleStep
    rcases tryDates_result cur i.timeFor i.bookOk
        (eligibleDates i.dates i.tomorrowStr cur) with h | ⟨h1, h2⟩
    · left; exact h
    · right; exact ⟨(mem_eligible_bounds h1).2, h2⟩
  refine ⟨hstep, ?_⟩
  intro cur is
  induction is generalizing cur with
  | nil => exact List.Chain.nil
  | cons i is ih =>
    refine List.Chain.cons ?_ (ih _)
    rcases hstep cur i with h | ⟨h1, _⟩
    · left; exact h
    · right; exact h1

/-- C7: whenever `book` reaches its POST, the submitted
`authenticity_token` is exactly the CSRF token extracted from the GET of
the booking page performed inside the same `book` call (a nonempty
`csrf-token` meta value of that page), and the form is entirely
independent of the supervisor's session headers — in particular of the
token obtained at login. -/
theorem booking_token_is_page_token (session : SessionHeaders)
    (getResp : RawResponse) (date time : String) (form : BookForm)
    (hform : bookRequest session getResp date time = .ok form) :
    (∃ t, getResp.csrfMeta = some t ∧ t ≠ "" ∧ form.authenticity_token = t) ∧
    (∀ other : SessionHeaders, bookRequest other getResp date time = .ok form) := by
  have hsame : ∀ o : SessionHeaders,
      bookRequest o getResp date time = bookRequest session getResp date time :=
    fun o => rfl
  refine ⟨?_, fun o => (hsame o).trans hform⟩
  unfold bookRequest at hform
  cases hok : getResp.ok with
  | false =>
    rw [if_pos hok] at hform
    split at hform <;> exact Except.noConfusion hform
  | true =>
    simp [hok] at hform
    cases hh : extractHeaders getResp with
    | error e => rw [hh] at hform; exact Except.noConfusion hform
    | ok nh =>
      rw [hh] at hform
      cases hform
      have h := extractHeaders_ok hh
      exact ⟨nh.csrfToken, h.1, h.2.1, rfl⟩

/-- Witness for C7: on a concrete booking page response the form token is
the page token, for any session headers. -/
theorem booking_token_is_page_token_witness :
    (∃ t, cookieResp.csrfMeta = some t ∧ t ≠ "" ∧
      (BookForm.mk "tok9" "2025-05-20" "09:00").authenticity_token = t) ∧
    (∀ other : SessionHeaders, bookRequest other cookieResp "2025-05-20" "09:00" =
      .ok (BookForm.mk "tok9" "2025-05-20" "09:00")) :=
  booking_token_is_page_token ⟨"c", "loginTok"⟩ cookieResp "2025-05-20" "09:00" _ rfl

/-- C8 counterexample: with a well-formed date argument, a failing initial
login does not abort the process — the outer catch of `main` logs and
recursively re-invokes `main`, i.e. retries — so initial login failure is
not fatal. -/
theorem startup_login_failure_retries :
    startup (some "2025-06-01") (.error "Login failed with status: 500") =
      .retryMain "Login failed with status: 500" ∧
    startup (some "2025-06-01") (.error "Login failed with status: 500") ≠
      .fatal :=
  ⟨rfl, by decide⟩

/-- C8 amended: the only fatal startup conditions are a missing (or
empty) date argument and a date failing the format check; a failing
initial login is caught by the outer catch and leads to a recursive
restart of `main` — a retry, not an abort. -/
theorem startup_fatal_iff (arg : Option String)
    (lr : Except String SessionHeaders) :
    (startup arg lr = .fatal ↔
      (arg = none ∨ ∃ d, arg = some d ∧ validDateFormat d = false)) ∧
    (∀ d e, arg = some d → validDateFormat d = true → lr = .error e →
      startup arg lr = .retryMain e) := by
  constructor
  · cases arg with
    | none => simp [startup]
    | some d =>
      by_cases hd : d = ""
      · subst hd
        simp only [startup, if_pos rfl]
        constructor
        · intro _
          right
          exact ⟨"", rfl, by decide⟩
        · intro _
          trivial
      · by_cases hv : validDateFormat d = false
        · simp only [startup, if_neg hd, if_pos hv]
          constructor
          · intro _
            right
            exact ⟨d, rfl, hv⟩
          · intro _
            trivial
        · simp only [startup, if_neg hd, if_neg hv]
          constructor
          · intro h
            cases lr with
            | error e => exact absurd h (by simp)
            | ok hh => exact absurd h (by simp)
          · rintro (h | ⟨d', hd', hv'⟩)
            · exact Option.noConfusion h
            · cases hd'
              exact absurd hv' hv
  · intro d e ha hv he
    subst ha
    subst he
    have hd : d ≠ "" := by
      intro h
      subst h
      exact absurd hv (by decide)
    simp [startup, hd, hv]

/-- Witness for the amended C8: a concrete failing login with a valid date
argument yields a retry. -/
theorem startup_fatal_iff_witness :
    startup (some "2025-06-01") (.error "network down") = .retryMain "network down" :=
  (startup_fatal_iff (some "2025-06-01") (.error "network down")).2
    "2025-06-01" "network down" rfl (by decide) rfl

/-- C9: the cookie/token extraction is a pure function of the observable
response value — it reads only the `set-cookie` header and the CSRF meta
content, so any two responses agreeing on those (re-reading the same
response, in particular) yield the same Session fragment, with no side
effects in the model. -/
theorem extract_headers_deterministic (r1 r2 : RawResponse)
    (hc : r1.setCookie = r2.setCookie) (hm : r1.csrfMeta = r2.csrfMeta) :
    extractHeaders r1 = extractHeaders r2 ∧
    extractRelevantCookies r1 = extractRelevantCookies r2 := by
  cases r1 with
  | mk ok1 st1 tx1 sc1 cm1 =>
    cases r2 with
    | mk ok2 st2 tx2 sc2 cm2 =>
      have hc' : sc1 = sc2 := hc
      have hm' : cm1 = cm2 := hm
      subst hc'
      subst hm'
      exact ⟨rfl, rfl⟩

/-- Witness for C9: two concrete responses differing in status, ok flag
and body but agreeing on cookies and token extract identically. -/
theorem extract_headers_deterministic_witness :
    extractHeaders cookieResp = extractHeaders cookieRespOtherStatus ∧
    extractRelevantCookies cookieResp = extractRelevantCookies cookieRespOtherStatus :=
  extract_headers_deterministic cookieResp cookieRespOtherStatus rfl rfl

theorem marker_not_in_timesFailMsg (n : Nat) :
    strContains (withStatus "Failed to fetch available times: " n)
      sessionExpiredMarker = false := by
  rw [strContains_withStatus _ _ _ marker_chars_not_digits marker_chars_ne_nil]
  decide

theorem marker_not_in_undefinedIndexMsg :
    strContains undefinedIndexMsg sessionExpiredMarker = false := by decide

theorem checkTime_notOk_noMarker {r : TimesResponse} (hok : r.ok = false)
    (hm : strContains r.text sessionExpiredMarker = false) :
    checkAvailableTime (.resp r) = .ok none := by
  simp [checkAvailableTime, checkTimeBody, hok, hm, marker_not_in_timesFailMsg]

theorem checkTime_parseErr {r : TimesResponse} {e : String} (hok : r.ok = true)
    (hj : r.json = .error e) (hm : strContains e sessionExpiredMarker = false) :
    checkAvailableTime (.resp r) = .ok none := by
  simp [checkAvailableTime, checkTimeBody, hok, hj, hm]

theorem checkTime_portalErr_noMarker {r : TimesResponse} {data : TimesData}
    {e : String} (hok : r.ok = true) (hj : r.json = .ok data)
    (he : jsTruthyStr data.error = some e)
    (hm : strContains e sessionExpiredMarker = false) :
    checkAvailableTime (.resp r) = .ok none := by
  simp [checkAvailableTime, checkTimeBody, hok, hj, he, hm]

theorem checkTime_noBusiness {r : TimesResponse} {data : TimesData}
    (hok : r.ok = true) (hj : r.json = .ok data)
    (he : jsTruthyStr data.error = none) (hb : data.business_times = none) :
    checkAvailableTime (.resp r) = .ok none := by
  simp [checkAvailableTime, checkTimeBody, hok, hj, he, hb,
    marker_not_in_undefinedIndexMsg]

theorem checkTime_emptyBusiness_noAvailable {r : TimesResponse} {data : TimesData}
    (hok : r.ok = true) (hj : r.json = .ok data)
    (he : jsTruthyStr data.error = none) (hb : data.business_times = some [])
    (ha : data.available_times = none) :
    checkAvailableTime (.resp r) = .ok none := by
  simp [checkAvailableTime, checkTimeBody, hok, hj, he, hb, ha,
    show jsTruthyStr (none : Option String) = none from rfl,
    marker_not_in_undefinedIndexMsg]

theorem checkTime_emptyBusiness_emptyAvailable {r : TimesResponse} {data : TimesData}
    (hok : r.ok = true) (hj : r.json = .ok data)
    (he : jsTruthyStr data.error = none) (hb : data.business_times = some [])
    (ha : data.available_times = some []) :
    checkAvailableTime (.resp r) = .ok none := by
  simp [checkAvailableTime, checkTimeBody, hok, hj, he, hb, ha,
    show jsTruthyStr (none : Option String) = none from rfl]

theorem checkTime_notOk_marker {r : TimesResponse} (hok : r.ok = false)
    (hm : strContains r.text sessionExpiredMarker = true) :
    checkAvailableTime (.resp r) = .error sessionExpiredMsg := by
  simp [checkAvailableTime, checkTimeBody, hok, hm, marker_in_sessionMsg]

theorem checkTime_portalErr_marker {r : TimesResponse} {data : TimesData}
    {e : String} (hok : r.ok = true) (hj : r.json = .ok data)
    (he : jsTruthyStr data.error = some e)
    (hm : strContains e sessionExpiredMarker = true) :
    checkAvailableTime (.resp r) = .error sessionExpiredMsg := by
  simp [checkAvailableTime, checkTimeBody, hok, hj, he, hm, marker_in_sessionMsg]

theorem checkTime_businessHit {r : TimesResponse} {data : TimesData}
    {bl : List String} {b : String} (hok : r.ok = true) (hj : r.json = .ok data)
    (he : jsTruthyStr data.error = none) (hb : data.business_times = some bl)
    (h0 : jsTruthyStr bl[0]? = some b) :
    checkAvailableTime (.resp r) = .ok (some b) := by
  simp [checkAvailableTime, checkTimeBody, hok, hj, he, hb, h0]

theorem checkTime_noB0_noAvailable {r : TimesResponse} {data : TimesData}
    {bl : List String} (hok : r.ok = true) (hj : r.json = .ok data)
    (he : jsTruthyStr data.error = none) (hb : data.business_times = some bl)
    (h0 : jsTruthyStr bl[0]? = none) (ha : data.available_times = none) :
    checkAvailableTime (.resp r) = .ok none := by
  simp [checkAvailableTime, checkTimeBody, hok, hj, he, hb, h0, ha,
    marker_not_in_undefinedIndexMsg]

theorem checkTime_noB0_available {r : TimesResponse} {data : TimesData}
    {bl al : List String} (hok : r.ok = true) (hj : r.json = .ok data)
    (he : jsTruthyStr data.error = none) (hb : data.business_times = some bl)
    (h0 : jsTruthyStr bl[0]? = none) (ha : data.available_times = some al) :
    checkAvailableTime (.resp r) = .ok al[0]? := by
  simp [checkAvailableTime, checkTimeBody, hok, hj, he, hb, h0, ha]

theorem checkTime_netErr_clean {msg : String}
    (hm : strContains msg sessionExpiredMarker = false) :
    checkAvailableTime (.netErr msg) = .ok none := by
  simp [checkAvailableTime, hm]

/-- C10: `checkAvailableTime` is total apart from session expiry — every
error it lets escape carries the session-expiry marker, and every failing
input that is not classified session-expired (transport error, non-2xx
without the marker, malformed JSON, non-session portal error, or both
time arrays missing or empty) yields `.ok none`, i.e. the null that makes
the caller skip the date; transport and parser messages are assumed not
to contain the marker themselves. -/
theorem check_available_time_total (f : TimesFetch) (hc : timesCleanMessages f) :
    (∀ e, checkAvailableTime f = .error e →
      strContains e sessionExpiredMarker = true) ∧
    (timesNonSessionFailure f → checkAvailableTime f = .ok none) := by
  constructor
  · intro e he
    cases f with
    | netErr msg =>
      have hc' : strContains msg sessionExpiredMarker = false := hc
      rw [checkTime_netErr_clean hc'] at he
      exact Except.noConfusion he
    | resp r =>
      cases hok : r.ok with
      | false =>
        cases hm : strContains r.text sessionExpiredMarker with
        | true =>
          rw [checkTime_notOk_marker hok hm] at he
          cases he
          exact marker_in_sessionMsg
        | false =>
          rw [checkTime_notOk_noMarker hok hm] at he
          exact Except.noConfusion he
      | true =>
        cases hj : r.json with
        | error em =>
          rw [checkTime_parseErr hok hj (hc em hj)] at he
          exact Except.noConfusion he
        | ok data =>
          cases he2 : jsTruthyStr data.error with
          | some e2 =>
            cases hm : strContains e2 sessionExpiredMarker with
            | true =>
              rw [checkTime_portalErr_marker hok hj he2 hm] at he
              cases he
              exact marker_in_sessionMsg
            | false =>
              rw [checkTime_portalErr_noMarker hok hj he2 hm] at he
              exact Except.noConfusion he
          | none =>
            cases hbt : data.business_times with
            | none =>
              rw [checkTime_noBusiness hok hj he2 hbt] at he
              exact Except.noConfusion he
            | some bl =>
              cases h0 : jsTruthyStr bl[0]? with
              | some b =>
                rw [checkTime_businessHit hok hj he2 hbt h0] at he
                exact Except.noConfusion he
              | none =>
                cases hat : data.available_times with
                | none =>
                  rw [checkTime_noB0_noAvailable hok hj he2 hbt h0 hat] at he
                  exact Except.noConfusion he
                | some al =>
                  rw [checkTime_noB0_available hok hj he2 hbt h0 hat] at he
                  exact Except.noConfusion he
  · intro hf
    cases f with
    | netErr msg =>
      have hc' : strContains msg sessionExpiredMarker = false := hc
      exact checkTime_netErr_clean hc'
    | resp r =>
      rcases hf with ⟨hok, hm⟩ | ⟨hok, e, hj⟩ | ⟨hok, data, e, hj, he, hm⟩ |
        ⟨hok, data, hj, he, hb, ha⟩
      · exact checkTime_notOk_noMarker hok hm
      · exact checkTime_parseErr hok hj (hc e hj)
      · exact checkTime_portalErr_noMarker hok hj he hm
      · rcases hb with hb | hb
        · exact checkTime_noBusiness hok hj he hb
        · rcases ha with ha | ha
          · exact checkTime_noB0_noAvailable hok hj he hb rfl ha
          · have h2 := checkTime_noB0_available hok hj he hb rfl ha
            simpa using h2

/-- Witness for C10: a concrete 500 response without the marker degrades
to a null time slot instead of raising. -/
theorem check_available_time_total_witness :
    checkAvailableTime (.resp timesFailResp) = .ok none :=
  (check_available_time_total (.resp timesFailResp)
      (fun _ h => Except.noConfusion h)).2 (Or.inl ⟨rfl, by decide⟩)
